import Mathlib

/-!
Verification of the Bounce fleet dashboard's risk-and-alert pipeline
(`src/dashboard.py`) against its specification.

The embedding keeps the source's variable names where Lean allows it:
`high_risk` and `risk_reason` (dashboard.py lines 386-399), the aggregate
metric variables `total_fleet`, `active_scooters`, `utilization_rate`,
`avg_revenue`, `avg_uptime` (lines 209-213, 241, 440), the alert bodies
`alert_summary` (lines 503-520) and `all_clear_msg` (lines 576-587), and
the SMS dispatch loops (lines 528-559 and 589-600).

Numeric modelling: float columns (battery, uptime, revenue) become `ℚ`;
timestamps become `Int` seconds, and pandas `(now - last_service).dt.days`
becomes floor division by 86400 (`Int.fdiv`), matching `timedelta.days`.
pandas `Series.mean()` of an empty column is NaN; an undefined mean is
modelled as `none : Option ℚ`.
-/

namespace BounceDash

/-- Fleet unit status, the four values of the `status` column
(dashboard.py line 91). -/
inductive Status where
  | available
  | onTrip
  | maintenance
  | alert
deriving DecidableEq

/-- One fleet scooter: the columns of `df_scooters` used by the pipeline
(dashboard.py lines 97-109).  `last_service` is an epoch timestamp in
seconds. -/
structure ScooterUnit where
  scooter_id : String
  hub : String
  status : Status
  battery_level : ℚ
  last_service : Int
  total_trips : Nat
  revenue_today : ℚ
  fault_reports : Nat
  uptime_percentage : ℚ
deriving DecidableEq

/-- Operator-tunable thresholds, from the two sidebar sliders
(dashboard.py lines 185-197).  The battery slider ranges over 10-50 and
the service-days slider over 30-90; the core logic itself performs no
validation of either value. -/
structure ThresholdConfig where
  battery_threshold : ℚ
  service_days : Int
deriving DecidableEq

/-- pandas `(now - last_service).dt.days`: whole days between two epoch
timestamps, rounded toward negative infinity as `timedelta.days` does. -/
def days_since (now last : Int) : Int :=
  Int.fdiv (now - last) 86400

/-- Condition 1 of the filter at dashboard.py line 387:
`battery_level < battery_threshold`. -/
def low_battery (u : ScooterUnit) (cfg : ThresholdConfig) : Bool :=
  decide (u.battery_level < cfg.battery_threshold)

/-- Condition 2, line 388: `fault_reports >= 3`. -/
def multiple_faults (u : ScooterUnit) : Bool :=
  decide (3 ≤ u.fault_reports)

/-- Condition 3, line 389: `uptime_percentage < 85`. -/
def low_uptime (u : ScooterUnit) : Bool :=
  decide (u.uptime_percentage < 85)

/-- Condition 4, line 390: `(now - last_service).dt.days > service_days`. -/
def service_overdue (u : ScooterUnit) (cfg : ThresholdConfig) (now : Int) : Bool :=
  decide (cfg.service_days < days_since now u.last_service)

/-- The disjunction of the four trigger conditions, the boolean mask of the
dataframe filter at dashboard.py lines 386-391. -/
def high_risk_cond (u : ScooterUnit) (cfg : ThresholdConfig) (now : Int) : Bool :=
  low_battery u cfg || multiple_faults u || low_uptime u || service_overdue u cfg now

/-- Risk reason tags appended to the `risk_reason` column
(dashboard.py lines 396-399). -/
inductive RiskTag where
  | lowBattery
  | multipleFaults
  | lowUptime
  | serviceOverdue
deriving DecidableEq

/-- The `risk_reason` column for one unit: the code starts from the empty
string and appends one tag per satisfied condition, in the fixed order of
lines 396-399, so the column ends up listing every satisfied condition. -/
def risk_reason (u : ScooterUnit) (cfg : ThresholdConfig) (now : Int) : List RiskTag :=
  (if low_battery u cfg then [RiskTag.lowBattery] else []) ++
  (if multiple_faults u then [RiskTag.multipleFaults] else []) ++
  (if low_uptime u then [RiskTag.lowUptime] else []) ++
  (if service_overdue u cfg now then [RiskTag.serviceOverdue] else [])

/-- The `high_risk` dataframe with its `risk_reason` column
(dashboard.py lines 386-399): the rows passing the four-way disjunctive
filter, in input order, each paired with its list of reason tags.  This is
the source's `evaluateRisk`. -/
def high_risk (us : List ScooterUnit) (cfg : ThresholdConfig) (now : Int) :
    List (ScooterUnit × List RiskTag) :=
  (us.filter (fun u => high_risk_cond u cfg now)).map
    (fun u => (u, risk_reason u cfg now))

/-- Spec-side rendering of the RiskEvaluator contract, written from the
spec's words: keep each unit whose set of satisfied conditions is
nonempty, tagged with every satisfied condition, in input order; drop
units with no satisfied condition. -/
def evaluateRiskSpec (us : List ScooterUnit) (cfg : ThresholdConfig) (now : Int) :
    List (ScooterUnit × List RiskTag) :=
  us.filterMap (fun u =>
    if risk_reason u cfg now = [] then none else some (u, risk_reason u cfg now))

/-- `total_fleet` (dashboard.py line 209). -/
def total_fleet (us : List ScooterUnit) : Nat := us.length

/-- `active_scooters` (line 210): rows with status On Trip. -/
def active_scooters (us : List ScooterUnit) : Nat :=
  (us.filter (fun u => decide (u.status = Status.onTrip))).length

/-- `available_scooters` (line 211). -/
def available_scooters (us : List ScooterUnit) : Nat :=
  (us.filter (fun u => decide (u.status = Status.available))).length

/-- `maintenance_scooters` (line 212). -/
def maintenance_scooters (us : List ScooterUnit) : Nat :=
  (us.filter (fun u => decide (u.status = Status.maintenance))).length

/-- `utilization_rate` (line 213): `(active / total) * 100 if total > 0 else 0`.
The guard makes the empty fleet yield 0 rather than a division fault. -/
def utilization_rate (us : List ScooterUnit) : ℚ :=
  if 0 < total_fleet us then
    ((active_scooters us : ℚ) / (total_fleet us : ℚ)) * 100
  else 0

/-- pandas `Series.mean()`: NaN (here `none`) on an empty column,
otherwise the arithmetic mean. -/
def series_mean (l : List ℚ) : Option ℚ :=
  if l.length = 0 then none else some (l.sum / (l.length : ℚ))

/-- `avg_revenue` (line 241): `filtered_scooters['revenue_today'].mean()`. -/
def avg_revenue (us : List ScooterUnit) : Option ℚ :=
  series_mean (us.map (fun u => u.revenue_today))

/-- `avg_uptime` (line 440): `filtered_scooters['uptime_percentage'].mean()`. -/
def avg_uptime (us : List ScooterUnit) : Option ℚ :=
  series_mean (us.map (fun u => u.uptime_percentage))

/-- The fleet-wide summary metrics the dashboard computes from a snapshot
(dashboard.py lines 209-213, 241, 440). -/
structure FleetMetrics where
  total_fleet : Nat
  active_scooters : Nat
  available_scooters : Nat
  maintenance_scooters : Nat
  utilization_rate : ℚ
  avg_revenue : Option ℚ
  avg_uptime : Option ℚ
deriving DecidableEq

/-- The Aggregator: all summary metrics of a unit list, bundled. -/
def aggregate (us : List ScooterUnit) : FleetMetrics :=
  ⟨total_fleet us, active_scooters us, available_scooters us,
   maintenance_scooters us, utilization_rate us, avg_revenue us, avg_uptime us⟩

/-- A composed alert: either the risk alert built at dashboard.py
lines 503-520 (total flagged count, the four breakdown counts, the fixed
action-item list, a timestamp) or the all-clear variant built at
lines 576-587 (fleet summary counts and a timestamp).  The two string
templates in the source have disjoint shapes; here they are the two
constructors. -/
inductive AlertMessage where
  | risk (flagged_count low_battery_count fault_count uptime_count
      service_count : Nat) (action_items : List String) (time : Int)
  | allClear (total_fleet : Nat) (utilization : ℚ) (active_rides : Nat)
      (time : Int)
deriving DecidableEq

/-- True exactly on the all-clear constructor. -/
def AlertMessage.is_all_clear : AlertMessage → Bool
  | AlertMessage.allClear _ _ _ _ => true
  | AlertMessage.risk _ _ _ _ _ _ _ => false

/-- The fixed action items of the risk alert body
(dashboard.py lines 514-517). -/
def action_items : List String :=
  ["Dispatch battery swap crews", "Schedule maintenance",
   "Review hub distribution"]

/-- The `alert_summary` message (dashboard.py lines 503-520): total count
`len(high_risk)` and the four breakdown counts, each of which the source
recomputes by re-filtering the `high_risk` rows with the corresponding
trigger condition, plus the static action items and the timestamp. -/
def alert_summary (flags : List (ScooterUnit × List RiskTag))
    (cfg : ThresholdConfig) (now : Int) : AlertMessage :=
  AlertMessage.risk flags.length
    ((flags.filter (fun e => low_battery e.1 cfg)).length)
    ((flags.filter (fun e => multiple_faults e.1)).length)
    ((flags.filter (fun e => low_uptime e.1)).length)
    ((flags.filter (fun e => service_overdue e.1 cfg now)).length)
    action_items now

/-- The `all_clear_msg` message (dashboard.py lines 576-587): total
scooters, utilization and active rides from the fleet metrics, plus the
timestamp. -/
def all_clear_msg (m : FleetMetrics) (now : Int) : AlertMessage :=
  AlertMessage.allClear m.total_fleet m.utilization_rate m.active_scooters now

/-- The AlertComposer: the branch at dashboard.py line 502 picks the risk
alert when the flagged list is nonempty and the all-clear variant
otherwise. -/
def compose_alert (flags : List (ScooterUnit × List RiskTag))
    (cfg : ThresholdConfig) (now : Int) (m : FleetMetrics) : AlertMessage :=
  if 0 < flags.length then alert_summary flags cfg now else all_clear_msg m now

/-- Per-recipient delivery outcome recorded by the dispatch loop
(dashboard.py lines 539-549): success, or failure with the error detail
captured from the transport exception. -/
inductive Outcome where
  | sent
  | failed (err : String)
deriving DecidableEq

/-- Outcome of one transport call, as the inner try/except records it. -/
def outcome_of : Except String String → Outcome
  | Except.ok _ => Outcome.sent
  | Except.error e => Outcome.failed e

/-- The `sent_count`/`failed_count` loop of the risk-alert dispatch
(dashboard.py lines 533-549).  For each phone, the `if phone:` guard skips
blank entries without touching either counter; a non-blank phone is sent
exactly once inside its own try/except, so a failure increments
`failed_count` and the loop continues with the remaining phones.  Returns
(sent_count, failed_count, per-recipient outcomes in input order). -/
def send_loop (send : String → Except String String) :
    List String → Nat × Nat × List (String × Outcome)
  | [] => (0, 0, [])
  | p :: rest =>
    if p = "" then send_loop send rest
    else
      match send p with
      | Except.ok _ =>
        let r := send_loop send rest
        (r.1 + 1, r.2.1, (p, Outcome.sent) :: r.2.2)
      | Except.error e =>
        let r := send_loop send rest
        (r.1, r.2.1 + 1, (p, Outcome.failed e) :: r.2.2)

/-- Result of one dispatch invocation: a delivery report, or one of the
two channel-unavailable messages shown at dashboard.py lines 561-565. -/
inductive DispatchResult where
  | report (sent_count failed_count : Nat)
      (outcomes : List (String × Outcome))
  | channelUnavailable (msg : String)
deriving DecidableEq

/-- True exactly on the report constructor. -/
def DispatchResult.is_report : DispatchResult → Bool
  | DispatchResult.report _ _ _ => true
  | DispatchResult.channelUnavailable _ => false

/-- The NotificationDispatcher for the risk alert (dashboard.py
lines 525-565): the guard at line 525 requires the twilio package to be
importable and credentials to be configured; only then does the send loop
run.  Otherwise one of the two channel-unavailable branches at
lines 561-565 is taken and no transport call is made. -/
def dispatch (twilio_available twilio_configured : Bool)
    (send : String → Except String String) (phones : List String) :
    DispatchResult :=
  if twilio_available && twilio_configured then
    let r := send_loop send phones
    DispatchResult.report r.1 r.2.1 r.2.2
  else if twilio_available then
    DispatchResult.channelUnavailable
      "Configure Twilio credentials above to send SMS alerts"
  else
    DispatchResult.channelUnavailable
      "Install Twilio package for SMS functionality"

/-- The all-clear send loop (dashboard.py lines 589-600).  Unlike the
risk-alert loop, the single try block wraps the whole `for` loop, so the
first transport exception aborts the remaining recipients.  Returns the
list of phones actually attempted, in order, and the error that stopped
the loop, if any. -/
def all_clear_send (send : String → Except String String) :
    List String → List String × Option String
  | [] => ([], none)
  | p :: rest =>
    if p = "" then all_clear_send send rest
    else
      match send p with
      | Except.ok _ =>
        let r := all_clear_send send rest
        (p :: r.1, r.2)
      | Except.error e => ([p], some e)

/-- A transport that fails on the first manager number and succeeds on any
other: the deliberately half-failing channel of the dispatch tests. -/
def failing_first_send : String → Except String String :=
  fun p => if p = "+1000" then Except.error "delivery failed" else Except.ok "SM1"

/-- Concrete unit for threshold-validation checks: battery 50, one fault,
uptime 92, last serviced 40 days before `now0`. -/
def u0 : ScooterUnit :=
  ⟨"BNC0001", "Koramangala Hub", Status.available, 50, 86400 * 60, 120, 40, 1, 92⟩

/-- A threshold configuration with a negative service-due-days value,
outside the slider range of 30-90. -/
def cfg_neg : ThresholdConfig := ⟨20, -1⟩

/-- Timestamp 100 days after epoch, so `u0` was serviced 40 days ago. -/
def now0 : Int := 86400 * 100

/-- Concrete unit matching the spec's first example scenario: battery 15,
one fault, uptime 92, last serviced 40 days ago. -/
def u1 : ScooterUnit :=
  ⟨"BNC0002", "HSR Layout Hub", Status.onTrip, 15, 86400 * 60, 200, 55, 1, 92⟩

/-- The spec's example configuration: battery threshold 20, service due
after 60 days. -/
def cfg1 : ThresholdConfig := ⟨20, 60⟩

/-- `risk_reason` is empty exactly when the filter mask is false: the tag
appends fire for the same four conditions as the dataframe filter. -/
lemma risk_reason_nil (u : ScooterUnit) (cfg : ThresholdConfig) (now : Int) :
    risk_reason u cfg now = [] ↔ high_risk_cond u cfg now = false := by
  unfold risk_reason high_risk_cond
  cases low_battery u cfg <;> cases multiple_faults u <;>
    cases low_uptime u <;> cases service_overdue u cfg now <;> simp

/-- The LowBattery tag is present exactly when the battery condition holds. -/
lemma lowBattery_mem_risk_reason (u : ScooterUnit) (cfg : ThresholdConfig)
    (now : Int) :
    RiskTag.lowBattery ∈ risk_reason u cfg now ↔
      u.battery_level < cfg.battery_threshold := by
  have hb : (low_battery u cfg = true) ↔ u.battery_level < cfg.battery_threshold := by
    simp [low_battery]
  rw [← hb]
  unfold risk_reason
  cases low_battery u cfg <;> cases multiple_faults u <;>
    cases low_uptime u <;> cases service_overdue u cfg now <;> simp

/-- The MultipleFaults tag is present exactly when the fault condition holds. -/
lemma multipleFaults_mem_risk_reason (u : ScooterUnit) (cfg : ThresholdConfig)
    (now : Int) :
    RiskTag.multipleFaults ∈ risk_reason u cfg now ↔ 3 ≤ u.fault_reports := by
  have hb : (multiple_faults u = true) ↔ 3 ≤ u.fault_reports := by
    simp [multiple_faults]
  rw [← hb]
  unfold risk_reason
  cases low_battery u cfg <;> cases multiple_faults u <;>
    cases low_uptime u <;> cases service_overdue u cfg now <;> simp

/-- The LowUptime tag is present exactly when the uptime condition holds. -/
lemma lowUptime_mem_risk_reason (u : ScooterUnit) (cfg : ThresholdConfig)
    (now : Int) :
    RiskTag.lowUptime ∈ risk_reason u cfg now ↔ u.uptime_percentage < 85 := by
  have hb : (low_uptime u = true) ↔ u.uptime_percentage < 85 := by
    simp [low_uptime]
  rw [← hb]
  unfold risk_reason
  cases low_battery u cfg <;> cases multiple_faults u <;>
    cases low_uptime u <;> cases service_overdue u cfg now <;> simp

/-- The ServiceOverdue tag is present exactly when whole days since the
last service exceed the configured limit. -/
lemma serviceOverdue_mem_risk_reason (u : ScooterUnit) (cfg : ThresholdConfig)
    (now : Int) :
    RiskTag.serviceOverdue ∈ risk_reason u cfg now ↔
      cfg.service_days < days_since now u.last_service := by
  have hb : (service_overdue u cfg now = true) ↔
      cfg.service_days < days_since now u.last_service := by
    simp [service_overdue]
  rw [← hb]
  unfold risk_reason
  cases low_battery u cfg <;> cases multiple_faults u <;>
    cases low_uptime u <;> cases service_overdue u cfg now <;> simp

/-- Claim C1: for every unit list, threshold config and explicit timestamp,
`high_risk` returns exactly the units satisfying at least one trigger
condition, in input order, each tagged with every condition it satisfies
(LowBattery iff battery below threshold, MultipleFaults iff at least 3
fault reports, LowUptime iff uptime below 85, ServiceOverdue iff whole
days since last service exceed the limit); units satisfying none are
excluded entirely. -/
theorem high_risk_matches_spec (us : List ScooterUnit) (cfg : ThresholdConfig)
    (now : Int) :
    high_risk us cfg now = evaluateRiskSpec us cfg now ∧
    ∀ u : ScooterUnit,
      (RiskTag.lowBattery ∈ risk_reason u cfg now ↔
        u.battery_level < cfg.battery_threshold) ∧
      (RiskTag.multipleFaults ∈ risk_reason u cfg now ↔ 3 ≤ u.fault_reports) ∧
      (RiskTag.lowUptime ∈ risk_reason u cfg now ↔ u.uptime_percentage < 85) ∧
      (RiskTag.serviceOverdue ∈ risk_reason u cfg now ↔
        cfg.service_days < days_since now u.last_service) := by
  refine ⟨?_, fun u =>
    ⟨lowBattery_mem_risk_reason u cfg now, multipleFaults_mem_risk_reason u cfg now,
     lowUptime_mem_risk_reason u cfg now, serviceOverdue_mem_risk_reason u cfg now⟩⟩
  induction us with
  | nil => rfl
  | cons u rest ih =>
    simp only [high_risk, evaluateRiskSpec, List.filter_cons, List.filterMap_cons] at ih ⊢
    cases h : high_risk_cond u cfg now
    · have hnil := (risk_reason_nil u cfg now).mpr h
      simpa [hnil] using ih
    · have hne : ¬ risk_reason u cfg now = [] := by
        intro hc
        have := (risk_reason_nil u cfg now).mp hc
        simp [h] at this
      simp only [if_pos rfl, hne, if_neg, List.map_cons]
      simpa [hne] using ih

/-- Claim C8: `high_risk` is a pure per-unit function: the entry computed
for a unit does not depend on which other units are in the list or where
the unit sits, so evaluation distributes over list decomposition and the
flags of `u` are always `high_risk [u] cfg now`. -/
theorem high_risk_pure (cfg : ThresholdConfig) (now : Int)
    (pre post : List ScooterUnit) (u : ScooterUnit) :
    high_risk (pre ++ u :: post) cfg now =
      high_risk pre cfg now ++ high_risk [u] cfg now ++ high_risk post cfg now := by
  simp only [high_risk, List.filter_append, List.map_append, List.filter_cons,
    List.filter_nil]
  cases h : high_risk_cond u cfg now <;> simp [h]

/-- Claim C3, counterexample: on the empty unit list the guarded metrics
are zero, but the two pandas means (`avg_revenue`, `avg_uptime`) are NaN,
modelled `none` — an undefined value, not the defined zero the claim
states. -/
theorem aggregate_empty_mean_is_nan :
    (aggregate []).total_fleet = 0 ∧ (aggregate []).utilization_rate = 0 ∧
    (aggregate []).avg_revenue = none ∧ (aggregate []).avg_uptime = none ∧
    (aggregate []).avg_revenue.isSome = false := by
  decide

/-- Claim C3, amended: `aggregate []` returns total 0, all status counts 0
and utilization 0 with no division fault (the explicit `total > 0` guard),
while the mean revenue and mean uptime are undefined (NaN, modelled
`none`) rather than zero. -/
theorem aggregate_empty_defined :
    aggregate ([] : List ScooterUnit) = ⟨0, 0, 0, 0, 0, none, none⟩ := by
  decide

/-- Claim C5: composing with an empty flagged list yields the all-clear
variant carrying the fleet summary counts (total units, utilization,
active rides) and a timestamp, and it is distinguishable by constructor
kind from every risk message, whatever the metrics (including zero
utilization). -/
theorem compose_alert_empty_all_clear (cfg : ThresholdConfig) (now : Int)
    (m : FleetMetrics) :
    compose_alert [] cfg now m =
      AlertMessage.allClear m.total_fleet m.utilization_rate m.active_scooters now ∧
    (compose_alert [] cfg now m).is_all_clear = true ∧
    ∀ fc lb mf lu so ai t,
      (AlertMessage.risk fc lb mf lu so ai t).is_all_clear = false := by
  exact ⟨rfl, rfl, fun _ _ _ _ _ _ _ => rfl⟩

/-- Claim C6: when the channel is unavailable (twilio not importable) or
unconfigured (no credentials), `dispatch` returns a channel-unavailable
result that does not depend on the transport or the recipient list (so no
delivery is attempted), is never of report kind, and is thereby
distinguishable from the report `(0, 0, [])` produced for a configured
channel with zero recipients. -/
theorem dispatch_unavailable_no_attempts (tw cf : Bool)
    (send send2 : String → Except String String)
    (phones phones2 : List String) :
    dispatch tw false send phones = dispatch tw false send2 phones2 ∧
    (dispatch tw false send phones).is_report = false ∧
    dispatch false cf send phones = dispatch false cf send2 phones2 ∧
    (dispatch false cf send phones).is_report = false ∧
    (dispatch true true send []).is_report = true ∧
    dispatch true true send [] = DispatchResult.report 0 0 [] := by
  cases tw <;> cases cf <;>
    simp [dispatch, DispatchResult.is_report, send_loop]

/-- Claim C4: the dispatch loop produces exactly one outcome per non-blank
recipient, with the transport consulted exactly at that recipient, in the
original relative order, skipping blank entries; on the spec's sample list
with two blanks exactly 2 attempts are made, and the empty recipient list
yields the report (0, 0, []) rather than an error. -/
theorem send_loop_skips_blanks (send : String → Except String String)
    (phones : List String) :
    (send_loop send phones).2.2 =
      (phones.filter (fun p => decide (p ≠ ""))).map
        (fun p => (p, outcome_of (send p))) ∧
    (send_loop send ["", "+1000", "", "+1001"]).2.2.length = 2 ∧
    send_loop send [] = (0, 0, []) ∧
    dispatch true true send [] = DispatchResult.report 0 0 [] := by
  have main : ∀ l : List String, (send_loop send l).2.2 =
      (l.filter (fun p => decide (p ≠ ""))).map
        (fun p => (p, outcome_of (send p))) := by
    intro l
    induction l with
    | nil => rfl
    | cons p rest ih =>
      by_cases hp : p = ""
      · simp [send_loop, hp, ih]
      · cases hs : send p <;> simp [send_loop, hp, hs, ih, outcome_of]
  refine ⟨main phones, ?_, rfl, rfl⟩
  rw [main ["", "+1000", "", "+1001"], List.length_map]
  decide

/-- Claim C10: every non-blank recipient processed by the dispatch loop
increments exactly one of the two counters, so the final report satisfies
sent + failed = number of non-blank recipients in the input (and, the
statement being universal in the list, the invariant holds of every
prefix). -/
theorem send_loop_counts_invariant (send : String → Except String String)
    (phones : List String) :
    (send_loop send phones).1 + (send_loop send phones).2.1 =
      (phones.filter (fun p => decide (p ≠ ""))).length := by
  induction phones with
  | nil => rfl
  | cons p rest ih =>
    simp only [ne_eq, decide_not] at ih
    by_cases hp : p = ""
    · simp [send_loop, hp, ih]
    · cases hs : send p <;> simp [send_loop, hp, hs] <;> omega

/-- Claim C2, counterexample: in the all-clear send loop the single try
block wraps the whole for loop, so with a transport that fails on the
first manager and would succeed on the second, the failure aborts the
loop: only the first phone is attempted, the second — which would have
succeeded — is never reached, instead of the claimed sent=1, failed=1 with
both outcomes. -/
theorem all_clear_send_short_circuits :
    all_clear_send failing_first_send ["+1000", "+1001"] =
      (["+1000"], some "delivery failed") ∧
    failing_first_send "+1001" = Except.ok "SM1" ∧
    (all_clear_send failing_first_send ["+1000", "+1001"]).1.contains "+1001"
      = false := by
  refine ⟨by decide, by rfl, by decide⟩

/-- Claim C2, amended: delivery failures never short-circuit the
risk-alert dispatch loop, whose per-recipient try/except records the
failure and continues, so one failing and one succeeding recipient yield
sent=1, failed=1 and both individual outcomes; the all-clear send loop,
by contrast, aborts at the first transport failure. -/
theorem send_loop_no_short_circuit (send : String → Except String String)
    (a b e sid : String) (ha : ¬ a = "") (hb : ¬ b = "")
    (hfa : send a = Except.error e) (hfb : send b = Except.ok sid) :
    send_loop send [a, b] =
      (1, 1, [(a, Outcome.failed e), (b, Outcome.sent)]) := by
  simp [send_loop, ha, hb, hfa, hfb]

/-- Witness for claim C2: the amended no-short-circuit property evaluated
at the concrete half-failing transport and two non-blank recipients. -/
theorem send_loop_no_short_circuit_witness :
    send_loop failing_first_send ["+1000", "+1001"] =
      (1, 1, [("+1000", Outcome.failed "delivery failed"),
              ("+1001", Outcome.sent)]) :=
  send_loop_no_short_circuit failing_first_send "+1000" "+1001"
    "delivery failed" "SM1" (by decide) (by decide) (by rfl) (by rfl)

/-- Claim C7, counterexample: a service-due-days value of -1, outside the
accepted 30-90 slider range, is not rejected before evaluation: the risk
evaluation runs on it and returns a normal tagged result (here flagging
`u0` as ServiceOverdue), with no InvalidThreshold error anywhere in the
pipeline. -/
theorem negative_threshold_not_rejected :
    cfg_neg.service_days = -1 ∧
    high_risk [u0] cfg_neg now0 = [(u0, [RiskTag.serviceOverdue])] := by
  decide

/-- Claim C7, amended: the code performs no threshold validation and has
no InvalidThreshold error: out-of-range values are prevented only by the
UI slider bounds (battery 10-50, service days 30-90), and the evaluation
itself accepts any config — with a negative service-due-days value it
simply runs and flags every unit whose whole-days-since-service is
non-negative as ServiceOverdue. -/
theorem high_risk_accepts_any_threshold (u : ScooterUnit)
    (cfg : ThresholdConfig) (now : Int) (hneg : cfg.service_days < 0)
    (hpos : 0 ≤ days_since now u.last_service) :
    RiskTag.serviceOverdue ∈ risk_reason u cfg now ∧
    (high_risk [u] cfg now).length = 1 := by
  have hlt : cfg.service_days < days_since now u.last_service :=
    lt_of_lt_of_le hneg hpos
  have hso : service_overdue u cfg now = true := by
    simpa [service_overdue] using hlt
  refine ⟨(serviceOverdue_mem_risk_reason u cfg now).mpr hlt, ?_⟩
  simp [high_risk, high_risk_cond, hso]

/-- Witness for claim C7: the amended no-validation property evaluated at
the concrete unit `u0` and the negative-days config `cfg_neg`. -/
theorem high_risk_accepts_any_threshold_witness :
    cfg_neg.service_days < 0 ∧ 0 ≤ days_since now0 u0.last_service ∧
    (RiskTag.serviceOverdue ∈ risk_reason u0 cfg_neg now0 ∧
      (high_risk [u0] cfg_neg now0).length = 1) :=
  ⟨by decide, by decide,
   high_risk_accepts_any_threshold u0 cfg_neg now0 (by decide) (by decide)⟩

/-- Every entry of `high_risk` carries exactly the `risk_reason` tags of
its unit. -/
lemma mem_high_risk_snd (us : List ScooterUnit) (cfg : ThresholdConfig)
    (now : Int) {e : ScooterUnit × List RiskTag}
    (he : e ∈ high_risk us cfg now) : e.2 = risk_reason e.1 cfg now := by
  rcases List.mem_map.mp he with ⟨u, _, rfl⟩
  rfl

/-- Two boolean filters that agree on every element of a list filter it
identically. -/
lemma list_filter_congr {α : Type} {p q : α → Bool} :
    ∀ l : List α, (∀ x ∈ l, p x = q x) → l.filter p = l.filter q := by
  intro l
  induction l with
  | nil => intro _; rfl
  | cons a t ih =>
    intro h
    have ha := h a (List.mem_cons_self a t)
    have ht := ih (fun x hx => h x (List.mem_cons_of_mem a hx))
    simp only [List.filter_cons, ha, ht]

/-- Re-filtering the flagged rows by a trigger condition counts exactly
the rows carrying the corresponding tag: the breakdown counts of the alert
body equal the per-tag counts. -/
lemma high_risk_filter_counts (us : List ScooterUnit) (cfg : ThresholdConfig)
    (now : Int) :
    (high_risk us cfg now).filter (fun e => low_battery e.1 cfg) =
      (high_risk us cfg now).filter
        (fun e => decide (RiskTag.lowBattery ∈ e.2)) ∧
    (high_risk us cfg now).filter (fun e => multiple_faults e.1) =
      (high_risk us cfg now).filter
        (fun e => decide (RiskTag.multipleFaults ∈ e.2)) ∧
    (high_risk us cfg now).filter (fun e => low_uptime e.1) =
      (high_risk us cfg now).filter
        (fun e => decide (RiskTag.lowUptime ∈ e.2)) ∧
    (high_risk us cfg now).filter (fun e => service_overdue e.1 cfg now) =
      (high_risk us cfg now).filter
        (fun e => decide (RiskTag.serviceOverdue ∈ e.2)) := by
  refine ⟨?_, ?_, ?_, ?_⟩ <;>
    [skip; skip; skip; skip] <;>
    apply list_filter_congr <;>
    intro e he <;>
    rw [mem_high_risk_snd us cfg now he]
  · rw [show low_battery e.1 cfg = decide (e.1.battery_level < cfg.battery_threshold) from rfl,
      decide_eq_decide]
    exact (lowBattery_mem_risk_reason e.1 cfg now).symm
  · rw [show multiple_faults e.1 = decide (3 ≤ e.1.fault_reports) from rfl,
      decide_eq_decide]
    exact (multipleFaults_mem_risk_reason e.1 cfg now).symm
  · rw [show low_uptime e.1 = decide (e.1.uptime_percentage < 85) from rfl,
      decide_eq_decide]
    exact (lowUptime_mem_risk_reason e.1 cfg now).symm
  · rw [show service_overdue e.1 cfg now =
        decide (cfg.service_days < days_since now e.1.last_service) from rfl,
      decide_eq_decide]
    exact (serviceOverdue_mem_risk_reason e.1 cfg now).symm

/-- Claim C9: for a nonempty flagged list as produced by the risk
evaluation, the composed alert is the risk variant carrying the total
flagged count, per-reason-tag counts equal to the number of flagged units
carrying that specific tag (a unit with several tags contributes to each
of its counts), the fixed static action-item list, and the timestamp. -/
theorem alert_summary_counts (us : List ScooterUnit) (cfg : ThresholdConfig)
    (now : Int) (m : FleetMetrics) (flags : List (ScooterUnit × List RiskTag))
    (hf : flags = high_risk us cfg now) (hne : 0 < flags.length) :
    compose_alert flags cfg now m =
      AlertMessage.risk flags.length
        ((flags.filter (fun e => decide (RiskTag.lowBattery ∈ e.2))).length)
        ((flags.filter (fun e => decide (RiskTag.multipleFaults ∈ e.2))).length)
        ((flags.filter (fun e => decide (RiskTag.lowUptime ∈ e.2))).length)
        ((flags.filter (fun e => decide (RiskTag.serviceOverdue ∈ e.2))).length)
        action_items now := by
  subst hf
  obtain ⟨h1, h2, h3, h4⟩ := high_risk_filter_counts us cfg now
  unfold compose_alert alert_summary
  rw [if_pos hne, h1, h2, h3, h4]

/-- Witness for claim C9: the composed alert for the spec's example unit
(battery 15 under threshold 20), evaluated concretely. -/
theorem alert_summary_counts_witness :
    compose_alert (high_risk [u1] cfg1 now0) cfg1 now0 (aggregate [u1]) =
      AlertMessage.risk (high_risk [u1] cfg1 now0).length
        (((high_risk [u1] cfg1 now0).filter
          (fun e => decide (RiskTag.lowBattery ∈ e.2))).length)
        (((high_risk [u1] cfg1 now0).filter
          (fun e => decide (RiskTag.multipleFaults ∈ e.2))).length)
        (((high_risk [u1] cfg1 now0).filter
          (fun e => decide (RiskTag.lowUptime ∈ e.2))).length)
        (((high_risk [u1] cfg1 now0).filter
          (fun e => decide (RiskTag.serviceOverdue ∈ e.2))).length)
        action_items now0 :=
  alert_summary_counts [u1] cfg1 now0 (aggregate [u1])
    (high_risk [u1] cfg1 now0) rfl (by decide)

end BounceDash
